import Mathlib

/-!
# Verification of the lexiassist-backend AI pipeline

Shallow embedding of the AI round-generation / analysis pipeline of the
repository (files `app/ai/storybook.py` and `app/ai/worddetective.py`),
together with theorems settling the specification claims.

Modelling conventions:
* Python JSON values are the inductive type `Json` (numbers as rationals;
  the floats appearing in the repo, 0.5/0.2/0.3, are exactly representable).
* The Python standard-library parser `json.loads` is not part of the
  repository; it is modelled as an abstract total oracle
  `loads : String → Option Json` (`none` = `JSONDecodeError`).
* Operations that can raise a Python `TypeError`/`KeyError` return
  `Except PyErr _`; a raised exception that escapes an endpoint is an
  `Except.error` result.
* External provider calls are modelled by oracles: the gateway receives
  `oracle : Nat → Option String` giving each attempt's outcome, and the
  endpoints receive the gateway's resulting `Option String`.
-/

/-- Python exception kinds relevant to the embedded code paths. -/
inductive PyErr where
  | typeError
  | keyError
deriving DecidableEq, Repr

/-- JSON values as produced by `json.loads`. -/
inductive Json where
  | null
  | bool (b : Bool)
  | num (q : ℚ)
  | str (s : String)
  | arr (elts : List Json)
  | obj (fields : List (String × Json))

namespace Py

/-- Does the character list `l` have `pat` as a prefix?  (helper for Python's
substring containment `pat in s`). -/
def startsWithL : List Char → List Char → Bool
  | [], _ => true
  | _ :: _, [] => false
  | p :: ps, x :: xs => p == x && startsWithL ps xs

/-- Python's `pat in s` substring test on character lists. -/
def hasSubL (pat : List Char) : List Char → Bool
  | [] => startsWithL pat []
  | x :: xs => startsWithL pat (x :: xs) || hasSubL pat xs

/-- Python's `pat in s` substring test on strings. -/
def hasSub (s pat : String) : Bool := hasSubL pat.toList s.toList

/-- Python truthiness (`bool(j)`) of a JSON value. -/
def truthy : Json → Bool
  | .null => false
  | .bool b => b
  | .num q => q != 0
  | .str s => s != ""
  | .arr xs => !xs.isEmpty
  | .obj fs => !fs.isEmpty

/-- Python `==` between a JSON value and a string: true exactly for an equal
string (Python equality across distinct JSON types is false). -/
def eqStr (x : Json) (key : String) : Bool :=
  match x with
  | .str s => s == key
  | _ => false

/-- Python's `key in j` for a string `key`: key membership for dicts, element
membership for lists, substring test for strings, `TypeError` otherwise. -/
def pyContains (key : String) : Json → Except PyErr Bool
  | .obj fs => .ok (fs.any (fun kv => kv.1 == key))
  | .arr xs => .ok (xs.any (fun x => eqStr x key))
  | .str s => .ok (hasSub s key)
  | _ => .error .typeError

/-- Python's `j[key]` for a string `key`: dict lookup (`KeyError` when the key
is absent), `TypeError` on any non-dict value. -/
def pyIndexS (key : String) : Json → Except PyErr Json
  | .obj fs =>
    match fs.find? (fun kv => kv.1 == key) with
    | some kv => .ok kv.2
    | none => .error .keyError
  | _ => .error .typeError

/-- Python's `len(j)`: length for strings, lists and dicts, `TypeError`
otherwise. -/
def pyLen : Json → Except PyErr Nat
  | .str s => .ok s.length
  | .arr xs => .ok xs.length
  | .obj fs => .ok fs.length
  | _ => .error .typeError

/-- Python's `j[:n]` followed by iteration over the result: a list of the
first `n` elements (characters of a string become 1-character strings, as
Python iteration yields them); slicing a dict or scalar raises `TypeError`. -/
def sliceIter (n : Nat) : Json → Except PyErr (List Json)
  | .arr xs => .ok (xs.take n)
  | .str s => .ok ((s.toList.take n).map (fun c => Json.str (String.mk [c])))
  | _ => .error .typeError

/-- Python dict assignment `d[k] = v` on the underlying field list: replace
the first binding of `k`, or append a new binding at the end (dicts preserve
insertion order). -/
def setKeyFields : List (String × Json) → String → Json → List (String × Json)
  | [], k, v => [(k, v)]
  | (k', v') :: rest, k, v =>
    if k' == k then (k, v) :: rest else (k', v') :: setKeyFields rest k v

/-- Python dict assignment `j[k] = v`; only ever reached on dict values in the
embedded code (every call site is guarded by a successful string-key index). -/
def setKey : Json → String → Json → Json
  | .obj fs, k, v => .obj (setKeyFields fs k v)
  | j, _, _ => j

/-- Python iteration `for x in j`: elements of a list, characters of a string
(as 1-character strings), keys of a dict, `TypeError` otherwise. -/
def pyIter : Json → Except PyErr (List Json)
  | .arr xs => .ok xs
  | .str s => .ok (s.toList.map (fun c => Json.str (String.mk [c])))
  | .obj fs => .ok (fs.map (fun kv => Json.str kv.1))
  | _ => .error .typeError

end Py

namespace SB
open Py

/-- `app/ai/storybook.py`, `FALLBACK_ROUNDS`: the hand-authored fallback
round catalog, transcribed verbatim. -/
def FALLBACK_ROUNDS : List Json :=
  [ .obj
      [ ("id", .str "fallback-4"),
        ("type", .str "text"),
        ("promptText", .str "Tap the sentences in the correct story order:"),
        ("items", .arr
          [ .str "A small bird lost its way during a storm.",
            .str "A kind child found the bird and brought it home.",
            .str "The bird learned to fly again and thanked the child." ]),
        ("aiGenerated", .bool true) ],
    .obj
      [ ("id", .str "fallback-5"),
        ("type", .str "text"),
        ("promptText", .str "Tap the sentences in the correct story order:"),
        ("items", .arr
          [ .str "The boy planted a tiny seed in the garden.",
            .str "A green sprout grew and turned into a plant.",
            .str "Soon the plant had bright flowers that bees loved." ]),
        ("aiGenerated", .bool true) ] ]

/-- Python `text.find(c)`: index of the first occurrence, `-1` when absent. -/
def pyFind (c : Char) (l : List Char) : Int :=
  match l.findIdx? (fun x => x == c) with
  | some i => (i : Int)
  | none => -1

/-- Python `text.rfind(c)`: index of the last occurrence, `-1` when absent
(computed through the first occurrence in the reversed list). -/
def pyRFind (c : Char) (l : List Char) : Int :=
  match l.reverse.findIdx? (fun x => x == c) with
  | some k => ((l.length - 1 - k : Nat) : Int)
  | none => -1

/-- `app/ai/storybook.py`, `parse_json_response`: try a strict parse of the
whole text; on failure compute `start = text.find('{')` (`-1` when absent) and
`end = text.rfind('}') + 1` (`0` when absent), and when `start != -1` and
`end > start`, try parsing `text[start:end]`; otherwise (or on a second
failure) return `None`.  `loads` is the `json.loads` oracle; totality of this
definition is the model of "never raises". -/
def parse_json_response (loads : String → Option Json) (text : String) : Option Json :=
  match loads text with
  | some v => some v
  | none =>
    let start : Int := pyFind '{' text.toList
    let stop : Int := pyRFind '}' text.toList + 1
    if start ≠ -1 ∧ stop > start then
      match loads (String.mk ((text.toList.drop start.toNat).take (stop - start).toNat)) with
      | some v => some v
      | none => none
    else none

/-- Spec §4.3, written from the specification's words: attempt a direct strict
parse of the entire text; if that fails, locate the first opening-brace and
the last closing-brace in the text and, when such a pair exists in order,
attempt to parse the inclusive substring between them; if that also fails (or
no such pair exists), return none. -/
def extract_spec (loads : String → Option Json) (text : String) : Option Json :=
  match loads text with
  | some v => some v
  | none =>
    match text.toList.findIdx? (fun c => c == '{'),
          (text.toList.reverse.findIdx? (fun c => c == '}')) with
    | some i, some k =>
      let j : Nat := text.toList.length - 1 - k
      if i ≤ j then
        loads (String.mk ((text.toList.drop i).take (j + 1 - i)))
      else none
    | _, _ => none

/-- Events observable at the provider boundary: one model call (with the
0-based attempt index) or one fixed backoff wait (`time.sleep(1)`). -/
inductive GEvent where
  | attempt (i : Nat)
  | sleep (secs : Nat)
deriving DecidableEq, Repr

/-- The retry loop of `call_gemini_with_retry` (`for attempt in
range(max_retries)`):  `i` is the current attempt index, the second `Nat`
argument is the number of iterations left (`maxR - i`, kept structural).  The
`oracle` gives each attempt's outcome (`some text` = success, `none` = the
caught provider exception).  After a failed attempt the code sleeps one second
exactly when `attempt < max_retries - 1`. -/
def retryGo (oracle : Nat → Option String) (maxR : Nat) : Nat → Nat → Option String × List GEvent
  | _, 0 => (none, [])
  | i, rem + 1 =>
    match oracle i with
    | some t => (some t, [GEvent.attempt i])
    | none =>
      let rest := retryGo oracle maxR (i + 1) rem
      (rest.1, GEvent.attempt i ::
        (if i + 1 < maxR then GEvent.sleep 1 :: rest.2 else rest.2))

/-- `app/ai/storybook.py`, `call_gemini_with_retry`: when the credential is
absent (`None`) or empty (falsy), return `None` immediately with no provider
events; otherwise run the retry loop.  Result: the returned
`Optional[str]` plus the trace of provider-boundary events. -/
def call_gemini_with_retry (apiKey : Option String) (oracle : Nat → Option String)
    (max_retries : Nat) : Option String × List GEvent :=
  match apiKey with
  | none => (none, [])
  | some k => if k == "" then (none, []) else retryGo oracle max_retries 0 max_retries

/-- The trace left by a run in which every attempt fails: attempts
`0, …, maxR-1` in order, each non-final attempt followed by the fixed
one-second backoff wait. -/
def failTraceFrom (i : Nat) : Nat → List GEvent
  | 0 => []
  | n + 1 =>
    if n = 0 then [GEvent.attempt i]
    else GEvent.attempt i :: GEvent.sleep 1 :: failTraceFrom (i + 1) n

/-- Number of `attempt` events in a trace. -/
def countAttempts : List GEvent → Nat
  | [] => 0
  | .attempt _ :: es => countAttempts es + 1
  | .sleep _ :: es => countAttempts es

/-- Number of `sleep` events in a trace. -/
def countSleeps : List GEvent → Nat
  | [] => 0
  | .attempt _ :: es => countSleeps es
  | .sleep _ :: es => countSleeps es + 1

/-- The `/api/storybook/generate-rounds` response model
(`GenerateRoundsResponse`). -/
structure GenResp where
  rounds : List Json
  source : String

/-- The process-wide `rounds_cache` dict, as an insertion-ordered association
list from session id to cached rounds. -/
abbrev Cache := List (String × List Json)

/-- Dict lookup `rounds_cache[s]` (first binding wins; a Python dict has at
most one binding per key). -/
def cacheLookup (cache : Cache) (s : String) : Option (List Json) :=
  (cache.find? (fun kv => kv.1 == s)).map (fun kv => kv.2)

/-- Dict assignment `rounds_cache[s] = v`. -/
def cacheInsert : Cache → String → List Json → Cache
  | [], s, v => [(s, v)]
  | (s', v') :: rest, s, v =>
    if s' == s then (s, v) :: rest else (s', v') :: cacheInsert rest s v

/-- The cache consultation at the top of `generate_rounds`:
`if request.sessionId and request.sessionId in rounds_cache` — a truthy
(non-empty) session id that is a cache key. -/
def cache_hit (sid : Option String) (cache : Cache) : Option (List Json) :=
  match sid with
  | none => none
  | some s => if s == "" then none else cacheLookup cache s

/-- Validation of one round object inside `generate_rounds`:
`all(k in round_data for k in ["id","type","promptText","items"])`, then
`len(round_data["items"]) < 5`, then the tagging
`round_data["aiGenerated"] = True`.  `.ok none` means the batch is rejected
(fallback); `.ok (some r)` is the accepted, tagged round. -/
def checkRound (j : Json) : Except PyErr (Option Json) :=
  match pyContains "id" j with
  | .error e => .error e
  | .ok b1 =>
    if !b1 then .ok none else
    match pyContains "type" j with
    | .error e => .error e
    | .ok b2 =>
      if !b2 then .ok none else
      match pyContains "promptText" j with
      | .error e => .error e
      | .ok b3 =>
        if !b3 then .ok none else
        match pyContains "items" j with
        | .error e => .error e
        | .ok b4 =>
          if !b4 then .ok none else
          match pyIndexS "items" j with
          | .error e => .error e
          | .ok items =>
            match pyLen items with
            | .error e => .error e
            | .ok n =>
              if n < 5 then .ok none
              else .ok (some (setKey j "aiGenerated" (Json.bool true)))

/-- The `for i, round_data in enumerate(rounds_data)` validation loop:
reject the whole batch on the first failing round, otherwise collect every
round tagged `aiGenerated = True`. -/
def validateRounds : List Json → Except PyErr (Option (List Json))
  | [] => .ok (some [])
  | j :: rest =>
    match checkRound j with
    | .error e => .error e
    | .ok none => .ok none
    | .ok (some j') =>
      match validateRounds rest with
      | .error e => .error e
      | .ok none => .ok none
      | .ok (some rest') => .ok (some (j' :: rest'))

/-- The post-parse validation of `generate_rounds` applied to a parsed
payload: `if not parsed`, `if "rounds" not in parsed or
len(parsed["rounds"]) < 2`, then the per-round loop on
`parsed["rounds"][:2]`.  `.ok none` means fallback. -/
def gen_validate (p : Json) : Except PyErr (Option (List Json)) :=
  if !truthy p then .ok none else
  match pyContains "rounds" p with
  | .error e => .error e
  | .ok hasR =>
    if !hasR then .ok none else
    match pyIndexS "rounds" p with
    | .error e => .error e
    | .ok rv =>
      match pyLen rv with
      | .error e => .error e
      | .ok n =>
        if n < 2 then .ok none else
        match sliceIter 2 rv with
        | .error e => .error e
        | .ok rl => validateRounds rl

/-- The fallback response of `generate_rounds`. -/
def fbResp : GenResp := { rounds := FALLBACK_ROUNDS, source := "fallback" }

/-- The cache state after a successful generation: `if request.sessionId:
rounds_cache[request.sessionId] = rounds_data` (only a truthy session id is
written). -/
def cacheAfter (sid : Option String) (cache : Cache) (tagged : List Json) : Cache :=
  match sid with
  | none => cache
  | some s => if s == "" then cache else cacheInsert cache s tagged

/-- Length of the `"items"` value of a round object
(`len(round_data["items"])`). -/
def itemsLen (j : Json) : Except PyErr Nat :=
  match pyIndexS "items" j with
  | .error e => .error e
  | .ok its => pyLen its

/-- `app/ai/storybook.py`, `generate_rounds`: consult the cache first; on a
hit return the cached rounds with `source="ai"` without calling the provider;
otherwise call the gateway (`providerText` is its result; the returned `Bool`
records that the provider path was taken), fall back when the gateway failed
or returned empty/unparseable/invalid text, and on success tag, cache (for a
truthy session id) and return the rounds with `source="ai"`.  An
`Except.error` is a Python exception escaping the endpoint. -/
def generate_rounds (loads : String → Option Json) (sid : Option String)
    (cache : Cache) (providerText : Option String) :
    Except PyErr (GenResp × Cache × Bool) :=
  match cache_hit sid cache with
  | some r => .ok ({ rounds := r, source := "ai" }, cache, false)
  | none =>
    match providerText with
    | none => .ok (fbResp, cache, true)
    | some t =>
      if t == "" then .ok (fbResp, cache, true) else
      match parse_json_response loads t with
      | none => .ok (fbResp, cache, true)
      | some p =>
        match gen_validate p with
        | .error e => .error e
        | .ok none => .ok (fbResp, cache, true)
        | .ok (some tagged) =>
          .ok ({ rounds := tagged, source := "ai" }, cacheAfter sid cache tagged, true)

/-- The `/api/storybook/analyze-response` response model. -/
structure AnalyzeResp where
  analysis : Json
  source : String

/-- The hard-coded fallback analysis of `analyze_response`, transcribed
verbatim (identical at all three fallback sites). -/
def fallback_analysis : Json :=
  .obj
    [ ("sequencing", .obj [("score", .num (1/2)), ("note", .str "Unable to assess sequencing patterns.")]),
      ("omissions", .obj [("score", .num (1/2)), ("note", .str "Unable to assess for omissions.")]),
      ("visualConfusion", .obj [("score", .num (1/5)), ("note", .str "No clear visual confusion patterns detected in this attempt.")]),
      ("phonologicalCue", .obj [("score", .num (1/5)), ("note", .str "No clear phonological emphasis detected in this attempt.")]),
      ("recommendedFollowUps", .arr
        [ .str "Ask the child to read the sentences aloud to listen for phonological patterns.",
          .str "Ask why they chose that specific order." ]),
      ("confidence", .num (3/10)) ]

/-- The required-field check of `analyze_response`:
`all(field in parsed for field in required_fields)` with short-circuit
evaluation over the six field names. -/
def checkAnalysisFields (p : Json) : Except PyErr Bool :=
  match pyContains "sequencing" p with
  | .error e => .error e
  | .ok b1 =>
    if !b1 then .ok false else
    match pyContains "omissions" p with
    | .error e => .error e
    | .ok b2 =>
      if !b2 then .ok false else
      match pyContains "visualConfusion" p with
      | .error e => .error e
      | .ok b3 =>
        if !b3 then .ok false else
        match pyContains "phonologicalCue" p with
        | .error e => .error e
        | .ok b4 =>
          if !b4 then .ok false else
          match pyContains "recommendedFollowUps" p with
          | .error e => .error e
          | .ok b5 =>
            if !b5 then .ok false else
            match pyContains "confidence" p with
            | .error e => .error e
            | .ok b6 => .ok b6

/-- `app/ai/storybook.py`, `analyze_response`: call the gateway
(`providerText` is its result), return the fallback analysis with
`source="fallback"` when the gateway failed or the text is empty, fails to
parse, is falsy, or misses a required field; otherwise return the parsed
payload with `source="ai"`. -/
def analyze_response (loads : String → Option Json) (providerText : Option String) :
    Except PyErr AnalyzeResp :=
  match providerText with
  | none => .ok { analysis := fallback_analysis, source := "fallback" }
  | some t =>
    if t == "" then .ok { analysis := fallback_analysis, source := "fallback" } else
    match parse_json_response loads t with
    | none => .ok { analysis := fallback_analysis, source := "fallback" }
    | some p =>
      if !truthy p then .ok { analysis := fallback_analysis, source := "fallback" } else
      match checkAnalysisFields p with
      | .error e => .error e
      | .ok ok =>
        if ok then .ok { analysis := p, source := "ai" }
        else .ok { analysis := fallback_analysis, source := "fallback" }

/-- The `/health` response model. -/
structure HealthResp where
  status : String
  api_key_configured : Bool
deriving DecidableEq, Repr

/-- `app/ai/storybook.py`, `health_check`: report `bool(GEMINI_API_KEY)` —
false exactly when the credential is absent or empty. -/
def health_check (apiKey : Option String) : HealthResp :=
  { status := "ok",
    api_key_configured := match apiKey with | none => false | some s => s != "" }

end SB

namespace WD
open Py

/-- The adjacent-transposition scan of `simple_mistake_type`:
`for i in range(len(wrong) - 1): if i < len(correct) - 1 and
wrong[i+1] == correct[i] and wrong[i] == correct[i+1]` (the Python guard
`i < len(correct) - 1` is `i + 1 < len(correct)` for the in-scope indices). -/
def transpositionScan (c w : List Char) : Bool :=
  (List.range (w.length - 1)).any (fun i =>
    decide (i + 1 < c.length) && (w.get? (i + 1) == c.get? i) && (w.get? i == c.get? (i + 1)))

/-- Python `s.lower()` as a character list (on ASCII input `str.lower` agrees
with per-character lowering). -/
def lowerL (s : String) : List Char := s.toList.map Char.toLower

/-- Python `s.lower().replace(" ", "")`: lowercase, then delete every space. -/
def lowerNoSpace (s : String) : List Char :=
  (lowerL s).filter (fun c => !(c == ' '))

/-- `app/ai/worddetective.py`, `simple_mistake_type`: first-matching-rule-wins
classification of a (correct word, chosen wrong word) pair. -/
def simple_mistake_type (correct wrong : String) : String :=
  if correct == "" || wrong == "" then "other"
  else if lowerNoSpace correct == lowerNoSpace wrong then "case/spacing"
  else if transpositionScan correct.toList wrong.toList then "transposition"
  else if wrong.length < correct.length then "missing_letter"
  else if wrong.length > correct.length then "extra_letter"
  else if (hasSubL ['e', 'i'] (lowerL correct) || hasSubL ['i', 'e'] (lowerL correct))
       && (hasSubL ['e', 'i'] (lowerL wrong) || hasSubL ['i', 'e'] (lowerL wrong)) then "ei/ie_confusion"
  else "other"

/-- One entry of the `/api/worddetective/analyze` request body
(`AttemptEntry`); `presentedPair` is the JSON object `Dict[str, str]`. -/
structure AttemptEntry where
  questionIndex : Int
  presentedPair : List (String × String)
  chosenWord : Option String
  chosenWasCorrect : Option Bool
  responseTimeSec : Option ℚ

/-- `presentedPair.get(k)` — dict `.get` with default `None`. -/
def pairGet (p : List (String × String)) (k : String) : Option String :=
  (p.find? (fun kv => kv.1 == k)).map (fun kv => kv.2)

/-- `presentedPair.get(k, "")` — dict `.get` with default `""`. -/
def pairGetD (p : List (String × String)) (k : String) : String :=
  ((p.find? (fun kv => kv.1 == k)).map (fun kv => kv.2)).getD ""

/-- Python `str(x)` of an `Optional[str]` as interpolated into the f-string
`f"{pair.get('correct')} -> {chosen}"`. -/
def optStr : Option String → String
  | none => "None"
  | some s => s

/-- Counter update `m[k] = m.get(k, 0) + 1` on an insertion-ordered dict. -/
def bump : List (String × Nat) → String → List (String × Nat)
  | [], k => [(k, 1)]
  | (k', n) :: rest, k =>
    if k' == k then (k, n + 1) :: rest else (k', n) :: bump rest k

/-- The risk banding of `analyze_results`:
`"low" if accuracy > 80 else "monitor" if accuracy > 60 else "high"`. -/
def riskBand (accuracy : ℚ) : String :=
  if accuracy > 80 then "low" else if accuracy > 60 then "monitor" else "high"

/-- One entry of the `perQuestion` breakdown in the analyze response. -/
structure PerQ where
  questionIndex : Int
  correct : Option String
  chosen : Option String
  wasCorrect : Bool
  responseTimeSec : Option ℚ

/-- The `/api/worddetective/analyze` response.  `accuracy` is the unrounded
percentage `score / total * 100` (the source rounds it to two decimals for
display only; the risk band is computed from the unrounded value). -/
structure WDAnalysis where
  score : Nat
  totalQuestions : Nat
  accuracy : ℚ
  commonMistakes : List (String × Nat)
  perQuestion : List PerQ
  risk : String
  mistakeTypes : List (String × Nat)
  avgTimeSec : Option ℚ

/-- `app/ai/worddetective.py`, `analyze_results`: score = number of attempts
with truthy `chosenWasCorrect`; accuracy = `score / total * 100` (0 when there
are no attempts); mistake counters over the attempts that are wrong and have
a truthy `chosenWord`; `times` keeps only truthy (non-zero) response times;
risk from `riskBand`. -/
def analyze_results (attempts : List AttemptEntry) : WDAnalysis :=
  let score := (attempts.filter (fun a => a.chosenWasCorrect == some true)).length
  let total := attempts.length
  let accuracy : ℚ := if total = 0 then 0 else (score : ℚ) / (total : ℚ) * 100
  let wrongOnes := attempts.filter (fun a =>
    !(a.chosenWasCorrect == some true) &&
      (match a.chosenWord with | some w => w != "" | none => false))
  let commonMistakes := wrongOnes.foldl
    (fun m a => bump m (optStr (pairGet a.presentedPair "correct") ++ " -> " ++ optStr a.chosenWord)) []
  let mistakeTypes := wrongOnes.foldl
    (fun m a => bump m (simple_mistake_type (pairGetD a.presentedPair "correct") (optStr a.chosenWord))) []
  let times := (attempts.filterMap (fun a => a.responseTimeSec)).filter (fun q => q ≠ 0)
  { score := score,
    totalQuestions := total,
    accuracy := accuracy,
    commonMistakes := commonMistakes,
    perQuestion := attempts.map (fun a =>
      { questionIndex := a.questionIndex,
        correct := pairGet a.presentedPair "correct",
        chosen := a.chosenWord,
        wasCorrect := a.chosenWasCorrect == some true,
        responseTimeSec := a.responseTimeSec }),
    risk := riskBand accuracy,
    mistakeTypes := mistakeTypes,
    avgTimeSec := if times.isEmpty then none else some (times.sum / times.length) }

/-- `app/ai/worddetective.py`, `FALLBACK_WORD_PAIRS`, transcribed verbatim. -/
def FALLBACK_WORD_PAIRS : List Json :=
  [ .obj [("correct", .str "friend"), ("wrong", .str "freind")],
    .obj [("correct", .str "because"), ("wrong", .str "becuase")],
    .obj [("correct", .str "beautiful"), ("wrong", .str "beatiful")],
    .obj [("correct", .str "tomorrow"), ("wrong", .str "tommorow")],
    .obj [("correct", .str "receive"), ("wrong", .str "recieve")],
    .obj [("correct", .str "different"), ("wrong", .str "diffrent")] ]

/-- The collection loop of `generate_words`:
`for obj in parsed: if "correct" in obj and "wrong" in obj: pairs.append(obj)`
with Python's short-circuit `and` and exception-raising `in`. -/
def collectPairs : List Json → Except PyErr (List Json)
  | [] => .ok []
  | o :: rest =>
    match pyContains "correct" o with
    | .error e => .error e
    | .ok b1 =>
      if !b1 then collectPairs rest else
      match pyContains "wrong" o with
      | .error e => .error e
      | .ok b2 =>
        if !b2 then collectPairs rest else
        match collectPairs rest with
        | .error e => .error e
        | .ok ps => .ok (o :: ps)

/-- `app/ai/worddetective.py`, `generate_words`: the whole provider block is
wrapped in `try/except`, so a provider error, a `json.loads` failure, or any
exception raised while iterating/testing membership falls back to
`FALLBACK_WORD_PAIRS`.  `cleanedText` is the provider text after the
code-fence-stripping regex substitutions and `.strip()` (`none` = provider
exception); `loads` is the `json.loads` oracle.  An empty collected list also
falls back; otherwise the first six collected objects are returned as-is. -/
def generate_words (loads : String → Option Json) (cleanedText : Option String) :
    List Json :=
  match cleanedText with
  | none => FALLBACK_WORD_PAIRS
  | some t =>
    match loads t with
    | none => FALLBACK_WORD_PAIRS
    | some parsed =>
      match pyIter parsed with
      | .error _ => FALLBACK_WORD_PAIRS
      | .ok elems =>
        match collectPairs elems with
        | .error _ => FALLBACK_WORD_PAIRS
        | .ok pairs => if pairs.isEmpty then FALLBACK_WORD_PAIRS else pairs.take 6

end WD

namespace Samples
open Py

/-- A `json.loads` oracle for the provider text `"5"`: the bare JSON number
`5` (valid JSON, truthy, not a container). -/
def loads5 : String → Option Json :=
  fun t => if t == "5" then some (Json.num 5) else none

/-- A `json.loads` oracle whose payload is an object without a `"rounds"`
key. -/
def loadsNoRounds : String → Option Json :=
  fun _ => some (Json.obj [("flavour", Json.num 1)])

/-- A well-formed AI round object, as a provider could return it. -/
def sampleRound (i : String) : Json :=
  .obj
    [ ("id", .str i),
      ("type", .str "text"),
      ("promptText", .str "Tap the sentences in the correct story order:"),
      ("items", .arr [.str "s1", .str "s2", .str "s3", .str "s4", .str "s5"]) ]

/-- The same round after the endpoint's tagging `round["aiGenerated"] = True`. -/
def sampleRoundTagged (i : String) : Json :=
  .obj
    [ ("id", .str i),
      ("type", .str "text"),
      ("promptText", .str "Tap the sentences in the correct story order:"),
      ("items", .arr [.str "s1", .str "s2", .str "s3", .str "s4", .str "s5"]),
      ("aiGenerated", .bool true) ]

/-- A well-formed two-round provider payload. -/
def samplePayload : Json :=
  .obj [("rounds", .arr [sampleRound "ai-4", sampleRound "ai-5"])]

/-- A `json.loads` oracle always returning the well-formed payload. -/
def sampleLoads : String → Option Json := fun _ => some samplePayload

/-- The tagged batch the endpoint produces from `samplePayload`. -/
def sampleTagged : List Json := [sampleRoundTagged "ai-4", sampleRoundTagged "ai-5"]

/-- A word-pair object with both fields empty. -/
def emptyPair : Json := Json.obj [("correct", Json.str ""), ("wrong", Json.str "")]

/-- A `json.loads` oracle returning a single word pair with empty fields. -/
def emptyPairLoads : String → Option Json := fun _ => some (Json.arr [emptyPair])

end Samples

/-! ## Claim theorems -/

namespace SB
open Py

/-- **C1.** For every `json.loads` oracle and every input string, the response
extractor first attempts a strict parse of the entire text; failing that it
locates the first opening brace and the last closing brace and, when a valid
(in-order) pair exists, parses the inclusive substring between them; failing
that (or lacking such a pair) it returns `none`.  Stated as: the source
translation `parse_json_response` coincides with `extract_spec`, the
specification-worded two-tier algorithm, on all inputs.  Both are total
functions, which is the model of "never raises an exception". -/
theorem C1_extractor_two_tier (loads : String → Option Json) (text : String) :
    parse_json_response loads text = extract_spec loads text := by
  unfold parse_json_response extract_spec pyFind pyRFind
  cases hl : loads text with
  | some v => rfl
  | none =>
    cases h1 : text.toList.findIdx? (fun c => c == '{') with
    | none =>
      cases h2 : text.toList.reverse.findIdx? (fun c => c == '}') with
      | none => dsimp only; simp
      | some k => dsimp only; simp
    | some i =>
      cases h2 : text.toList.reverse.findIdx? (fun c => c == '}') with
      | none =>
        dsimp only
        have : ¬(((i : Nat) : Int) ≠ -1 ∧ (-1 : Int) + 1 > (i : Nat)) := by omega
        rw [if_neg this]
      | some k =>
        dsimp only
        by_cases hij : i ≤ text.toList.length - 1 - k
        · have hcond : ((i : Nat) : Int) ≠ -1 ∧
              ((text.toList.length - 1 - k : Nat) : Int) + 1 > (i : Nat) := by omega
          rw [if_pos hcond, if_pos hij]
          have ha : (((i : Nat) : Int)).toNat = i := by omega
          have hb : (((text.toList.length - 1 - k : Nat) : Int) + 1 - ((i : Nat) : Int)).toNat
              = text.toList.length - 1 - k + 1 - i := by omega
          rw [ha, hb]
          cases loads (String.mk ((text.toList.drop i).take (text.toList.length - 1 - k + 1 - i))) <;> rfl
        · have hcond : ¬(((i : Nat) : Int) ≠ -1 ∧
              ((text.toList.length - 1 - k : Nat) : Int) + 1 > (i : Nat)) := by omega
          rw [if_neg hcond, if_neg hij]

end SB

namespace WD
open Py

/-- **C7 counterexample.** The spec's example `classify("receive","recieve") =
ei/ie_confusion` fails on the code: the `ie`/`ei` swap is an adjacent
transposition, so the earlier transposition rule fires first and the
classifier returns `"transposition"`. -/
theorem C7_counterexample_receive :
    simple_mistake_type "receive" "recieve" = "transposition" ∧
    ("transposition" : String) ≠ "ei/ie_confusion" := by
  exact ⟨by decide, by decide⟩

/-- **C7 (amended).** The word-pair mistake classifier satisfies the spec's
examples under its first-matching-rule-wins ordering, except that
`classify("receive","recieve")` is caught by the earlier adjacent-transposition
rule and yields `"transposition"` (not `"ei/ie_confusion"`):
`classify("the","hte") = transposition`, `classify("cat","cats") =
extra_letter`, `classify("Cat"," cat") = case/spacing`, and
`classify("dog","big") = other`. -/
theorem C7_classifier_amended :
    simple_mistake_type "the" "hte" = "transposition" ∧
    simple_mistake_type "cat" "cats" = "extra_letter" ∧
    simple_mistake_type "Cat" " cat" = "case/spacing" ∧
    simple_mistake_type "receive" "recieve" = "transposition" ∧
    simple_mistake_type "dog" "big" = "other" := by
  refine ⟨by decide, by decide, by decide, by decide, by decide⟩

/-- **C9.** The analyze endpoint's risk banding uses strict greater-than
thresholds on the accuracy percentage: accuracy 85 yields `"low"`, 70 yields
`"monitor"`, 50 yields `"high"`, exactly 80 yields `"monitor"` (the `>80`
threshold is exclusive); in general `risk = "low"` iff `accuracy > 80`,
`"monitor"` iff `60 < accuracy ≤ 80`, `"high"` iff `accuracy ≤ 60`; and the
endpoint's `risk` field is exactly this banding of its `accuracy` field. -/
theorem C9_risk_banding :
    riskBand 85 = "low" ∧ riskBand 70 = "monitor" ∧ riskBand 50 = "high" ∧
    riskBand 80 = "monitor" ∧
    (∀ attempts : List AttemptEntry,
      (analyze_results attempts).risk = riskBand (analyze_results attempts).accuracy) ∧
    (∀ q : ℚ, (riskBand q = "low" ↔ 80 < q) ∧
      (riskBand q = "monitor" ↔ 60 < q ∧ q ≤ 80) ∧
      (riskBand q = "high" ↔ q ≤ 60)) := by
  refine ⟨by decide, by decide, by decide, by decide, fun attempts => rfl, fun q => ?_⟩
  unfold riskBand
  split_ifs with h1 h2
  · refine ⟨⟨fun _ => h1, fun _ => rfl⟩,
      ⟨fun h => absurd h (by decide), fun h => absurd h1 (by linarith [h.2])⟩,
      ⟨fun h => absurd h (by decide), fun h => absurd h1 (by linarith)⟩⟩
  · refine ⟨⟨fun h => absurd h (by decide), fun h => absurd h1 (by linarith)⟩,
      ⟨fun _ => ⟨h2, by linarith⟩, fun _ => rfl⟩,
      ⟨fun h => absurd h (by decide), fun h => absurd h2 (by linarith)⟩⟩
  · refine ⟨⟨fun h => absurd h (by decide), fun h => absurd h1 (by linarith)⟩,
      ⟨fun h => absurd h (by decide), fun h => absurd h2 (by linarith [h.1])⟩,
      ⟨fun _ => by linarith, fun _ => rfl⟩⟩

end WD

namespace SB
open Py

/-- Helper: when every attempt fails, the retry loop from attempt `i` with
`n` iterations left returns `none` and leaves the all-fail trace. -/
theorem retryGo_allfail (oracle : Nat → Option String) (maxR : Nat)
    (hall : ∀ j, j < maxR → oracle j = none) :
    ∀ n i, i + n = maxR → retryGo oracle maxR i n = (none, failTraceFrom i n) := by
  intro n
  induction n with
  | zero => intro i _; rfl
  | succ n ih =>
    intro i hi
    have hio : oracle i = none := hall i (by omega)
    show retryGo oracle maxR i (n + 1) = _
    simp only [retryGo, hio]
    rw [ih (i + 1) (by omega)]
    cases n with
    | zero =>
      have hn : ¬(i + 1 < maxR) := by omega
      rw [if_neg hn]
      rfl
    | succ m =>
      have hn : i + 1 < maxR := by omega
      rw [if_pos hn]
      rfl

/-- Helper: the all-fail trace contains exactly `n` attempts. -/
theorem countAttempts_failTrace : ∀ n i, countAttempts (failTraceFrom i n) = n := by
  intro n
  induction n with
  | zero => intro i; rfl
  | succ m ih =>
    intro i
    cases m with
    | zero => rfl
    | succ m' =>
      have hstep : countAttempts (failTraceFrom i (m' + 2))
          = countAttempts (failTraceFrom (i + 1) (m' + 1)) + 1 := rfl
      rw [hstep, ih]

/-- Helper: the all-fail trace contains exactly `n - 1` backoff waits. -/
theorem countSleeps_failTrace : ∀ n i, countSleeps (failTraceFrom i n) = n - 1 := by
  intro n
  induction n with
  | zero => intro i; rfl
  | succ m ih =>
    intro i
    cases m with
    | zero => rfl
    | succ m' =>
      have hstep : countSleeps (failTraceFrom i (m' + 2))
          = countSleeps (failTraceFrom (i + 1) (m' + 1)) + 1 := rfl
      rw [hstep, ih]
      omega

/-- **C4.** For every prompt, if every provider attempt fails, the model
gateway performs exactly `max_retries` attempts, each non-final attempt
followed by the fixed one-second backoff wait (the trace is
`failTraceFrom 0 max_retries`: attempts `0…max_retries-1` with a `sleep 1`
separating each consecutive pair), then returns the failure signal `none`,
which is distinct from every valid text `some t`; the gateway is a total
function (it never raises for a provider error — exceptions are caught by the
loop and modelled as failed attempts in the oracle). -/
theorem C4_retry_exhaustion (k : String) (oracle : Nat → Option String) (m : Nat)
    (hk : k ≠ "") (hall : ∀ j, j < m → oracle j = none) :
    call_gemini_with_retry (some k) oracle m = (none, failTraceFrom 0 m) ∧
    countAttempts (call_gemini_with_retry (some k) oracle m).2 = m ∧
    countSleeps (call_gemini_with_retry (some k) oracle m).2 = m - 1 ∧
    (∀ t : String, (call_gemini_with_retry (some k) oracle m).1 ≠ some t) := by
  have hbeq : (k == "") = false := by rw [beq_eq_false_iff_ne]; exact hk
  have hmain : call_gemini_with_retry (some k) oracle m = (none, failTraceFrom 0 m) := by
    show (if (k == "") = true then ((none : Option String), ([] : List GEvent))
          else retryGo oracle m 0 m) = _
    rw [hbeq, if_neg (by simp)]
    exact retryGo_allfail oracle m hall m 0 (by omega)
  refine ⟨hmain, ?_, ?_, ?_⟩
  · rw [hmain]; exact countAttempts_failTrace m 0
  · rw [hmain]; exact countSleeps_failTrace m 0
  · intro t h
    rw [hmain] at h
    exact Option.noConfusion h

/-- Witness for C4 at the source's default `max_retries = 2`: two attempts
separated by one backoff wait, then `none`. -/
theorem C4_retry_exhaustion_witness :
    call_gemini_with_retry (some "key") (fun _ => none) 2
      = (none, [GEvent.attempt 0, GEvent.sleep 1, GEvent.attempt 1]) ∧
    countAttempts (call_gemini_with_retry (some "key") (fun _ => none) 2).2 = 2 ∧
    countSleeps (call_gemini_with_retry (some "key") (fun _ => none) 2).2 = 2 - 1 ∧
    (∀ t : String, (call_gemini_with_retry (some "key") (fun _ => none) 2).1 ≠ some t) :=
  C4_retry_exhaustion "key" (fun _ => none) 2 (by decide) (fun _ _ => rfl)

/-- **C5.** When the provider credential is absent: the gateway fails
immediately with no provider attempt (empty event trace); `/health` reports
`api_key_configured = false`; and — on any cache miss, the only cache state
reachable without a prior successful provider call — `generate-rounds` and
`analyze-response` both return their fallback content with
`source = "fallback"`. -/
theorem C5_credential_absent (oracle : Nat → Option String) (m : Nat)
    (loads : String → Option Json) (sid : Option String) (cache : Cache)
    (hmiss : cache_hit sid cache = none) :
    call_gemini_with_retry none oracle m = (none, []) ∧
    health_check none = { status := "ok", api_key_configured := false } ∧
    generate_rounds loads sid cache (call_gemini_with_retry none oracle m).1
      = .ok (fbResp, cache, true) ∧
    analyze_response loads (call_gemini_with_retry none oracle m).1
      = .ok { analysis := fallback_analysis, source := "fallback" } := by
  refine ⟨rfl, rfl, ?_, rfl⟩
  show generate_rounds loads sid cache none = _
  unfold generate_rounds
  rw [hmiss]

/-- Witness for C5 at concrete inputs (empty cache, no session). -/
theorem C5_credential_absent_witness :
    call_gemini_with_retry none (fun _ => none) 2 = (none, []) ∧
    health_check none = { status := "ok", api_key_configured := false } ∧
    generate_rounds (fun _ => none) none []
        (call_gemini_with_retry none (fun _ => none) 2).1
      = .ok (fbResp, [], true) ∧
    analyze_response (fun _ => none) (call_gemini_with_retry none (fun _ => none) 2).1
      = .ok { analysis := fallback_analysis, source := "fallback" } :=
  C5_credential_absent (fun _ => none) 2 (fun _ => none) none [] rfl

end SB

namespace SB
open Py

/-- Helper: a successful `gen_validate` comes from the per-round validation
loop accepting a batch. -/
theorem gen_validate_ok_some (p : Json) (tagged : List Json)
    (hv : gen_validate p = .ok (some tagged)) :
    ∃ rl, validateRounds rl = .ok (some tagged) := by
  unfold gen_validate at hv
  repeat' split at hv
  all_goals
    first
      | exact Except.noConfusion hv
      | exact ⟨_, hv⟩
      | simp at hv

/-- Helper: anatomy of a `generate_rounds` call that returned `source = "ai"`:
either it was a cache hit (returning the cached rounds unchanged, cache
untouched, provider not called), or it was a fresh generation whose rounds
were accepted by the validation loop and whose cache is `cacheAfter`. -/
theorem gen_rounds_ai_cases (loads : String → Option Json) (sid : Option String)
    (cache : Cache) (pt : Option String) (resp : GenResp) (c' : Cache) (b : Bool)
    (h : generate_rounds loads sid cache pt = .ok (resp, c', b))
    (hai : resp.source = "ai") :
    (∃ r, cache_hit sid cache = some r ∧ resp.rounds = r ∧ c' = cache ∧ b = false)
    ∨ (cache_hit sid cache = none ∧ b = true ∧
        ∃ tagged, resp.rounds = tagged ∧
          (∃ rl, validateRounds rl = .ok (some tagged)) ∧
          c' = cacheAfter sid cache tagged) := by
  cases hch : cache_hit sid cache with
  | some r =>
    left
    simp only [generate_rounds, hch] at h
    simp only [Except.ok.injEq, Prod.mk.injEq] at h
    obtain ⟨h1, h2, h3⟩ := h
    exact ⟨r, rfl, by rw [← h1], h2.symm, h3.symm⟩
  | none =>
    right
    refine ⟨rfl, ?_⟩
    simp only [generate_rounds, hch] at h
    repeat' split at h
    all_goals
      first
        | exact Except.noConfusion h
        | (simp only [Except.ok.injEq, Prod.mk.injEq] at h
           obtain ⟨h1, h2, h3⟩ := h
           rw [← h1] at hai
           exact absurd hai (by decide))
        | (simp only [Except.ok.injEq, Prod.mk.injEq] at h
           obtain ⟨h1, h2, h3⟩ := h
           refine ⟨h3.symm, _, by rw [← h1], ?_, h2.symm⟩
           exact gen_validate_ok_some _ _ (by assumption))

/-- Helper: dict lookup after dict insertion of the same key. -/
theorem cacheLookup_insert (cache : Cache) (s : String) (v : List Json) :
    cacheLookup (cacheInsert cache s v) s = some v := by
  induction cache with
  | nil => simp [cacheInsert, cacheLookup]
  | cons a rest ih =>
    obtain ⟨s', v'⟩ := a
    cases hk : s' == s with
    | true =>
      simp [cacheInsert, hk, cacheLookup]
    | false =>
      simp only [cacheInsert, hk, Bool.false_eq_true, if_false]
      simpa [cacheLookup, List.find?, hk] using ih

/-- Helper: a `generate_rounds` call with a non-empty session id that
returned `source = "ai"` leaves the returned rounds in the cache under that
session id. -/
theorem gen_ai_cached (loads : String → Option Json) (s : String) (cache : Cache)
    (pt : Option String) (resp : GenResp) (c' : Cache) (b : Bool)
    (hne : (s == "") = false)
    (h : generate_rounds loads (some s) cache pt = .ok (resp, c', b))
    (hai : resp.source = "ai") :
    cacheLookup c' s = some resp.rounds := by
  rcases gen_rounds_ai_cases loads (some s) cache pt resp c' b h hai with
    ⟨r, hch, hr, hc, -⟩ | ⟨-, -, tagged, hr, -, hc⟩
  · rw [hc, hr]
    simpa [cache_hit, hne] using hch
  · rw [hc, hr]
    simp only [cacheAfter, hne, Bool.false_eq_true, if_false]
    exact cacheLookup_insert cache s tagged

/-- **C3.** For every non-empty session identifier: if a `generate-rounds`
call succeeds with AI-tagged rounds (`source = "ai"`), then a second call
with the same session identifier — with any `json.loads` oracle and any
provider behaviour, both irrelevant because the cache is consulted first —
returns the identical rounds value tagged `source = "ai"`, with the cache
unchanged and without the provider path being taken (the returned flag is
`false`). -/
theorem C3_cache_idempotent (loads loads' : String → Option Json) (s : String)
    (cache : Cache) (pt pt' : Option String) (resp : GenResp) (c' : Cache) (b : Bool)
    (hne : s ≠ "")
    (h1 : generate_rounds loads (some s) cache pt = .ok (resp, c', b))
    (hai : resp.source = "ai") :
    generate_rounds loads' (some s) c' pt'
      = .ok ({ rounds := resp.rounds, source := "ai" }, c', false) := by
  have hbeq : (s == "") = false := by rw [beq_eq_false_iff_ne]; exact hne
  have hc : cacheLookup c' s = some resp.rounds :=
    gen_ai_cached loads s cache pt resp c' b hbeq h1 hai
  have hch : cache_hit (some s) c' = some resp.rounds := by
    simp [cache_hit, hbeq, hc]
  simp only [generate_rounds, hch]

/-- Witness for C3: a first fresh generation for session `"s1"` from a
well-formed provider payload, then a second call answered from the cache. -/
theorem C3_cache_idempotent_witness :
    generate_rounds (fun _ => none) (some "s1") [("s1", Samples.sampleTagged)] none
      = .ok ({ rounds := Samples.sampleTagged, source := "ai" },
             [("s1", Samples.sampleTagged)], false) :=
  C3_cache_idempotent Samples.sampleLoads (fun _ => none) "s1" [] (some "x") none
    { rounds := Samples.sampleTagged, source := "ai" }
    [("s1", Samples.sampleTagged)] true
    (by decide) rfl rfl

end SB

namespace SB
open Py

/-- Helper: a successful `find?` makes `any` true for the same predicate. -/
theorem any_of_find?_some {α : Type} (p : α → Bool) (l : List α) (a : α)
    (h : l.find? p = some a) : l.any p = true := by
  induction l with
  | nil => simp [List.find?] at h
  | cons x xs ih =>
    cases hpx : p x with
    | true => simp [List.any_cons, hpx]
    | false =>
      rw [List.find?_cons, hpx] at h
      simp only [List.any_cons, hpx, Bool.false_or]
      exact ih h

/-- Helper: a dict payload failing any of the batch checks described by the
spec — no `"rounds"` key, fewer than two rounds, a first round rejected by
the per-round validation, or an accepted first round followed by a rejected
second — makes `gen_validate` reject the whole batch. -/
theorem gen_validate_obj_bad (fs : List (String × Json))
    (hbad : pyContains "rounds" (Json.obj fs) = .ok false ∨
      ∃ rs, pyIndexS "rounds" (Json.obj fs) = .ok (Json.arr rs) ∧
        (rs.length < 2 ∨
         (∃ a l, rs = a :: l ∧ checkRound a = .ok none) ∨
         (∃ a b l x, rs = a :: b :: l ∧ checkRound a = .ok (some x) ∧
            checkRound b = .ok none))) :
    gen_validate (Json.obj fs) = .ok none := by
  unfold gen_validate
  cases hfe : fs.isEmpty with
  | true => simp [truthy, hfe]
  | false =>
    simp only [truthy, hfe, Bool.not_false, Bool.not_true, Bool.false_eq_true, if_false]
    rcases hbad with hc | ⟨rs, hidx, hcase⟩
    · have hany : fs.any (fun kv => kv.1 == "rounds") = false := by
        simpa [pyContains] using hc
      simp [pyContains, hany]
    · have hfind : ∃ kv, fs.find? (fun kv => kv.1 == "rounds") = some kv := by
        simp only [pyIndexS] at hidx
        cases hf : fs.find? (fun kv => kv.1 == "rounds") with
        | none => rw [hf] at hidx; exact Except.noConfusion hidx
        | some kv => exact ⟨kv, rfl⟩
      obtain ⟨kv, hf⟩ := hfind
      have hany : fs.any (fun kv => kv.1 == "rounds") = true :=
        any_of_find?_some _ fs kv hf
      simp only [pyContains, hany, Bool.not_true, Bool.false_eq_true, if_false]
      simp only [hidx, pyLen]
      rcases hcase with hlen | ⟨a, l, rfl, hcr⟩ | ⟨a, b, l, x, rfl, hcra, hcrb⟩
      · rw [if_pos hlen]
      · by_cases hl2 : (a :: l).length < 2
        · rw [if_pos hl2]
        · rw [if_neg hl2]
          simp only [sliceIter, List.take_succ_cons]
          simp [validateRounds, hcr]
      · have hl2 : ¬((a :: b :: l).length < 2) := by simp
        rw [if_neg hl2]
        simp only [sliceIter, List.take_succ_cons, List.take_zero]
        simp [validateRounds, hcra, hcrb]

/-- **C2 counterexample.** The claim fails as stated: the provider text `"5"`
parses to the (truthy, non-dict) payload `5`, which certainly "lacks the
rounds field", yet the endpoint does not return the fallback catalog — the
membership test `"rounds" not in parsed` raises a `TypeError` that escapes
the handler. -/
theorem C2_counterexample_numeric_payload :
    parse_json_response Samples.loads5 "5" = some (Json.num 5) ∧
    pyContains "rounds" (Json.num 5) = .error .typeError ∧
    generate_rounds Samples.loads5 none [] (some "5") = .error .typeError ∧
    generate_rounds Samples.loads5 none [] (some "5") ≠ .ok (fbResp, [], true) := by
  refine ⟨rfl, rfl, rfl, ?_⟩
  intro hcontra
  rw [show generate_rounds Samples.loads5 none [] (some "5")
        = Except.error PyErr.typeError from rfl] at hcontra
  exact Except.noConfusion hcontra

/-- **C2 (amended).** Round-batch validation is all-or-nothing for dict
payloads: on a cache miss, for every non-empty provider text whose extracted
payload is an object that lacks the `"rounds"` key, or whose `"rounds"` value
is an array with fewer than two elements, or whose first element fails the
per-round validation (missing one of the four required fields, or items of
length < 5), or whose first element passes and second element fails it, the
endpoint returns the full fallback catalog with `source = "fallback"` — never
a partially-accepted batch.  (Truthy non-container payloads instead raise a
`TypeError`, per the counterexample.) -/
theorem C2_all_or_nothing_amended (loads : String → Option Json) (sid : Option String)
    (cache : Cache) (t : String) (fs : List (String × Json))
    (hmiss : cache_hit sid cache = none) (ht : t ≠ "")
    (hp : parse_json_response loads t = some (Json.obj fs))
    (hbad : pyContains "rounds" (Json.obj fs) = .ok false ∨
      ∃ rs, pyIndexS "rounds" (Json.obj fs) = .ok (Json.arr rs) ∧
        (rs.length < 2 ∨
         (∃ a l, rs = a :: l ∧ checkRound a = .ok none) ∨
         (∃ a b l x, rs = a :: b :: l ∧ checkRound a = .ok (some x) ∧
            checkRound b = .ok none))) :
    generate_rounds loads sid cache (some t) = .ok (fbResp, cache, true) := by
  have htb : (t == "") = false := beq_eq_false_iff_ne.mpr ht
  have hgv : gen_validate (Json.obj fs) = .ok none := gen_validate_obj_bad fs hbad
  simp only [generate_rounds, hmiss, htb, Bool.false_eq_true, if_false, hp, hgv]

/-- Witness for C2 (amended): a payload object without a `"rounds"` key falls
back wholesale. -/
theorem C2_all_or_nothing_witness :
    generate_rounds Samples.loadsNoRounds none [] (some "z") = .ok (fbResp, [], true) :=
  C2_all_or_nothing_amended Samples.loadsNoRounds none [] "z"
    [("flavour", Json.num 1)] rfl (by decide) rfl (Or.inl rfl)

end SB

namespace SB
open Py

/-- Helper: looking up a key other than the one just assigned sees the
original dict. -/
theorem setKeyFields_find?_ne (fs : List (String × Json)) (k k' : String) (v : Json)
    (hne : k' ≠ k) :
    (setKeyFields fs k v).find? (fun kv => kv.1 == k')
      = fs.find? (fun kv => kv.1 == k') := by
  have hkk : (k == k') = false := by
    rw [beq_eq_false_iff_ne]; exact fun hh => hne hh.symm
  induction fs with
  | nil => simp [setKeyFields, List.find?_cons, hkk, List.find?]
  | cons a rest ih =>
    obtain ⟨ka, va⟩ := a
    cases hk : ka == k with
    | true =>
      have hka : ka = k := by rwa [beq_iff_eq] at hk
      subst hka
      simp [setKeyFields, List.find?_cons, hkk]
    | false =>
      simp only [setKeyFields, hk, Bool.false_eq_true, if_false]
      rw [List.find?_cons, List.find?_cons]
      cases hk' : (ka == k') with
      | true => rfl
      | false => exact ih
  
/-- Helper: looking up the key just assigned sees the new value. -/
theorem setKeyFields_find?_self (fs : List (String × Json)) (k : String) (v : Json) :
    (setKeyFields fs k v).find? (fun kv => kv.1 == k) = some (k, v) := by
  induction fs with
  | nil => simp [setKeyFields, List.find?_cons]
  | cons a rest ih =>
    obtain ⟨ka, va⟩ := a
    cases hk : ka == k with
    | true => simp [setKeyFields, hk, List.find?_cons]
    | false => simp only [setKeyFields, hk, Bool.false_eq_true, if_false,
        List.find?_cons, ih]

/-- Helper: `pyIndexS` across a `setKey` with a different key. -/
theorem pyIndexS_setKey_ne (fs : List (String × Json)) (k k' : String) (v : Json)
    (hne : k' ≠ k) :
    pyIndexS k' (setKey (Json.obj fs) k v) = pyIndexS k' (Json.obj fs) := by
  simp only [setKey, pyIndexS, setKeyFields_find?_ne fs k k' v hne]

/-- Helper: `pyIndexS` of the key just assigned by `setKey`. -/
theorem pyIndexS_setKey_self (fs : List (String × Json)) (k : String) (v : Json) :
    pyIndexS k (setKey (Json.obj fs) k v) = .ok v := by
  simp only [setKey, pyIndexS, setKeyFields_find?_self]

/-- Helper: a round accepted by `checkRound` has an `"items"` value of length
at least 5 and carries `aiGenerated = True`. -/
theorem checkRound_ok_some (j j' : Json) (h : checkRound j = .ok (some j')) :
    (∃ n, itemsLen j' = .ok n ∧ 5 ≤ n) ∧
    pyIndexS "aiGenerated" j' = .ok (Json.bool true) := by
  cases j with
  | null => simp [checkRound, pyContains] at h
  | bool b => simp [checkRound, pyContains] at h
  | num q => simp [checkRound, pyContains] at h
  | str s =>
    unfold checkRound at h
    rw [show pyIndexS "items" (Json.str s) = Except.error PyErr.typeError from rfl] at h
    repeat' split at h
    all_goals first | exact Except.noConfusion h | simp_all
  | arr xs =>
    unfold checkRound at h
    rw [show pyIndexS "items" (Json.arr xs) = Except.error PyErr.typeError from rfl] at h
    repeat' split at h
    all_goals first | exact Except.noConfusion h | simp_all
  | obj fs =>
    unfold checkRound at h
    simp only [pyContains] at h
    split at h
    · simp at h
    split at h
    · simp at h
    split at h
    · simp at h
    split at h
    · simp at h
    cases hit : pyIndexS "items" (Json.obj fs) with
    | error e => simp only [hit] at h; exact Except.noConfusion h
    | ok items =>
      simp only [hit] at h
      cases hlen : pyLen items with
      | error e => simp only [hlen] at h; exact Except.noConfusion h
      | ok n =>
        simp only [hlen] at h
        split at h
        · simp at h
        next hn =>
          have hj : setKey (Json.obj fs) "aiGenerated" (Json.bool true) = j' := by
            simpa using h
          subst hj
          constructor
          · refine ⟨n, ?_, by omega⟩
            unfold itemsLen
            rw [pyIndexS_setKey_ne fs "aiGenerated" "items" (Json.bool true) (by decide)]
            rw [hit]
            exact hlen
          · exact pyIndexS_setKey_self fs "aiGenerated" (Json.bool true)

/-- Helper: every round in a batch accepted by the validation loop has ≥ 5
items and carries `aiGenerated = True`. -/
theorem validateRounds_sound : ∀ (l l' : List Json),
    validateRounds l = .ok (some l') →
    ∀ j' ∈ l',
      (∃ n, itemsLen j' = .ok n ∧ 5 ≤ n) ∧
      pyIndexS "aiGenerated" j' = .ok (Json.bool true) := by
  intro l
  induction l with
  | nil =>
    intro l' h j' hj
    simp only [validateRounds, Except.ok.injEq, Option.some.injEq] at h
    subst h
    simp at hj
  | cons j rest ih =>
    intro l' h j' hj
    unfold validateRounds at h
    cases hcr : checkRound j with
    | error e => simp only [hcr] at h; exact Except.noConfusion h
    | ok o =>
      cases o with
      | none => simp only [hcr] at h; simp at h
      | some jt =>
        simp only [hcr] at h
        cases hvr : validateRounds rest with
        | error e => simp only [hvr] at h; exact Except.noConfusion h
        | ok o2 =>
          cases o2 with
          | none => simp only [hvr] at h; simp at h
          | some rest' =>
            simp only [hvr] at h
            have hl : jt :: rest' = l' := by simpa using h
            subst hl
            cases hj with
            | head => exact checkRound_ok_some j j' hcr
            | tail _ hmem => exact ih rest' hvr j' hmem

/-- Helper: every round returned by a fresh (cache-missing) `generate_rounds`
call with `source = "ai"` has ≥ 5 items and carries `aiGenerated = True`. -/
theorem gen_fresh_ai_sound (loads : String → Option Json) (sid : Option String)
    (cache : Cache) (pt : Option String) (resp : GenResp) (c' : Cache) (b : Bool)
    (hmiss : cache_hit sid cache = none)
    (h : generate_rounds loads sid cache pt = .ok (resp, c', b))
    (hai : resp.source = "ai") :
    ∀ r ∈ resp.rounds,
      (∃ n, itemsLen r = .ok n ∧ 5 ≤ n) ∧
      pyIndexS "aiGenerated" r = .ok (Json.bool true) := by
  rcases gen_rounds_ai_cases loads sid cache pt resp c' b h hai with
    ⟨r, hch, -, -, -⟩ | ⟨-, -, tagged, hr, ⟨rl, hv⟩, -⟩
  · rw [hmiss] at hch; exact Option.noConfusion hch
  · intro r hrm
    rw [hr] at hrm
    exact validateRounds_sound rl tagged hv r hrm

/-- **C6 counterexample.** The fallback catalog — returned verbatim by the
endpoint whenever generation fails — has rounds whose `items` sequence
contains 3 entries, outside the claimed `[5, 6]` window. -/
theorem C6_counterexample_fallback_items :
    generate_rounds (fun _ => none) none [] none = .ok (fbResp, [], true) ∧
    itemsLen (fbResp.rounds.headD Json.null) = .ok 3 ∧ ¬(5 ≤ 3 ∧ 3 ≤ 6) := by
  exact ⟨rfl, rfl, by omega⟩

/-- **C6 (amended).** Item counts: every round of a freshly machine-generated
batch (`source = "ai"` on a cache miss) has an `items` value of length ≥ 5
(the upper bound 6 is not enforced by the code), while every round of the
fallback catalog has exactly 3 items. -/
theorem C6_item_count_amended :
    (∀ (loads : String → Option Json) (sid : Option String) (cache : Cache)
        (pt : Option String) (resp : GenResp) (c' : Cache) (b : Bool),
      cache_hit sid cache = none →
      generate_rounds loads sid cache pt = .ok (resp, c', b) →
      resp.source = "ai" →
      ∀ r ∈ resp.rounds, ∃ n, itemsLen r = .ok n ∧ 5 ≤ n) ∧
    (∀ r ∈ FALLBACK_ROUNDS, itemsLen r = .ok 3) := by
  constructor
  · intro loads sid cache pt resp c' b hmiss h hai r hr
    exact (gen_fresh_ai_sound loads sid cache pt resp c' b hmiss h hai r hr).1
  · intro r hr
    simp only [FALLBACK_ROUNDS, List.mem_cons, List.not_mem_nil, or_false] at hr
    rcases hr with rfl | rfl <;> rfl

/-- Witness for C6 (amended): a concrete fresh generation from a well-formed
payload; its first returned round has 5 items. -/
theorem C6_item_count_witness :
    ∃ n, itemsLen (Samples.sampleRoundTagged "ai-4") = .ok n ∧ 5 ≤ n :=
  C6_item_count_amended.1 Samples.sampleLoads (some "s1") [] (some "x")
    { rounds := Samples.sampleTagged, source := "ai" }
    [("s1", Samples.sampleTagged)] true rfl rfl rfl
    (Samples.sampleRoundTagged "ai-4") (by simp [Samples.sampleTagged])

/-- **C8 counterexample.** Fallback rounds do not carry a flag marking them
as fallback: the catalog's rounds are returned with `source = "fallback"` yet
carry `aiGenerated = True`, the same flag value as machine-generated
rounds. -/
theorem C8_counterexample_fallback_flag :
    generate_rounds (fun _ => none) none [] none = .ok (fbResp, [], true) ∧
    fbResp.source = "fallback" ∧
    pyIndexS "aiGenerated" (fbResp.rounds.headD Json.null) = .ok (Json.bool true) ∧
    Json.bool true ≠ Json.bool false := by
  refine ⟨rfl, rfl, rfl, ?_⟩
  intro hx
  injection hx with hb
  exact Bool.noConfusion hb

/-- **C8 (amended).** Validated AI rounds are tagged `aiGenerated = True`
before being returned (and cached); however the flag does not distinguish
provenance, because every fallback-catalog round also carries
`aiGenerated = True` — provenance is carried by the response's `source`
field, not by the per-round flag. -/
theorem C8_flag_amended :
    (∀ (loads : String → Option Json) (sid : Option String) (cache : Cache)
        (pt : Option String) (resp : GenResp) (c' : Cache) (b : Bool),
      cache_hit sid cache = none →
      generate_rounds loads sid cache pt = .ok (resp, c', b) →
      resp.source = "ai" →
      ∀ r ∈ resp.rounds, pyIndexS "aiGenerated" r = .ok (Json.bool true)) ∧
    (∀ r ∈ FALLBACK_ROUNDS, pyIndexS "aiGenerated" r = .ok (Json.bool true)) := by
  constructor
  · intro loads sid cache pt resp c' b hmiss h hai r hr
    exact (gen_fresh_ai_sound loads sid cache pt resp c' b hmiss h hai r hr).2
  · intro r hr
    simp only [FALLBACK_ROUNDS, List.mem_cons, List.not_mem_nil, or_false] at hr
    rcases hr with rfl | rfl <;> rfl

/-- Witness for C8 (amended): the second round of a concrete fresh generation
carries `aiGenerated = True`. -/
theorem C8_flag_witness :
    pyIndexS "aiGenerated" (Samples.sampleRoundTagged "ai-5") = .ok (Json.bool true) :=
  C8_flag_amended.1 Samples.sampleLoads (some "s1") [] (some "x")
    { rounds := Samples.sampleTagged, source := "ai" }
    [("s1", Samples.sampleTagged)] true rfl rfl rfl
    (Samples.sampleRoundTagged "ai-5") (by simp [Samples.sampleTagged])

end SB

namespace WD
open Py

/-- Helper: every object collected by the `generate_words` loop passed both
key-presence membership tests. -/
theorem collectPairs_sound : ∀ (l ps : List Json), collectPairs l = .ok ps →
    ∀ p ∈ ps, pyContains "correct" p = .ok true ∧ pyContains "wrong" p = .ok true := by
  intro l
  induction l with
  | nil =>
    intro ps h p hp
    simp only [collectPairs, Except.ok.injEq] at h
    subst h
    simp at hp
  | cons o rest ih =>
    intro ps h p hp
    unfold collectPairs at h
    cases hc1 : pyContains "correct" o with
    | error e => simp only [hc1] at h; exact Except.noConfusion h
    | ok b1 =>
      simp only [hc1] at h
      cases b1 with
      | false =>
        simp only [Bool.not_false, if_true] at h
        exact ih ps h p hp
      | true =>
        simp only [Bool.not_true, Bool.false_eq_true, if_false] at h
        cases hc2 : pyContains "wrong" o with
        | error e => simp only [hc2] at h; exact Except.noConfusion h
        | ok b2 =>
          simp only [hc2] at h
          cases b2 with
          | false =>
            simp only [Bool.not_false, if_true] at h
            exact ih ps h p hp
          | true =>
            simp only [Bool.not_true, Bool.false_eq_true, if_false] at h
            cases hcr : collectPairs rest with
            | error e => simp only [hcr] at h; exact Except.noConfusion h
            | ok ps' =>
              simp only [hcr] at h
              have hlist : o :: ps' = ps := by simpa using h
              subst hlist
              cases hp with
              | head => exact ⟨hc1, hc2⟩
              | tail _ hmem => exact ih ps' hcr p hmem

/-- **C10 counterexample.** A parsed provider payload containing a pair whose
`correct` and `wrong` fields are empty strings is returned as-is by the
word-pair generation endpoint — the code only checks key presence, never
non-emptiness. -/
theorem C10_counterexample_empty_pair :
    generate_words Samples.emptyPairLoads (some "x") = [Samples.emptyPair] ∧
    pyIndexS "correct" Samples.emptyPair = .ok (Json.str "") ∧
    pyIndexS "wrong" Samples.emptyPair = .ok (Json.str "") ∧
    ("" : String).length = 0 :=
  ⟨rfl, rfl, rfl, rfl⟩

/-- **C10 (amended).** Every pair in the fallback list has both fields
non-empty strings; a pair taken from the parsed model output is only
guaranteed to contain both keys (`correct`, `wrong`) — non-emptiness (and
string-ness) of the values is not checked, as the counterexample shows. -/
theorem C10_wordpair_amended :
    (∀ p ∈ FALLBACK_WORD_PAIRS,
      ∃ c w, pyIndexS "correct" p = .ok (Json.str c) ∧
        pyIndexS "wrong" p = .ok (Json.str w) ∧ c ≠ "" ∧ w ≠ "") ∧
    (∀ (loads : String → Option Json) (t : String) (p : Json),
      p ∈ generate_words loads (some t) →
      p ∈ FALLBACK_WORD_PAIRS ∨
        (pyContains "correct" p = .ok true ∧ pyContains "wrong" p = .ok true)) := by
  constructor
  · intro p hp
    simp only [FALLBACK_WORD_PAIRS, List.mem_cons, List.not_mem_nil, or_false] at hp
    rcases hp with rfl | rfl | rfl | rfl | rfl | rfl <;>
      exact ⟨_, _, rfl, rfl, by decide, by decide⟩
  · intro loads t p hp
    unfold generate_words at hp
    cases hl : loads t with
    | none => simp only [hl] at hp; exact Or.inl hp
    | some parsed =>
      simp only [hl] at hp
      cases hit : pyIter parsed with
      | error e => simp only [hit] at hp; exact Or.inl hp
      | ok elems =>
        simp only [hit] at hp
        cases hcp : collectPairs elems with
        | error e => simp only [hcp] at hp; exact Or.inl hp
        | ok pairs =>
          simp only [hcp] at hp
          cases hemp : pairs.isEmpty with
          | true => simp only [hemp, if_true] at hp; exact Or.inl hp
          | false =>
            simp only [hemp, Bool.false_eq_true, if_false] at hp
            exact Or.inr (collectPairs_sound elems pairs hcp p (List.take_subset 6 pairs hp))

/-- Witness for C10 (amended) at the counterexample's input: the returned
empty-string pair indeed carries both keys. -/
theorem C10_wordpair_witness :
    Samples.emptyPair ∈ FALLBACK_WORD_PAIRS ∨
      (pyContains "correct" Samples.emptyPair = .ok true ∧
       pyContains "wrong" Samples.emptyPair = .ok true) :=
  C10_wordpair_amended.2 Samples.emptyPairLoads "x" Samples.emptyPair
    (by rw [show generate_words Samples.emptyPairLoads (some "x")
            = [Samples.emptyPair] from rfl]
        exact List.mem_singleton_self _)

end WD
